import Mathlib

/-!
Shallow embedding of the reel/engagement backend (`src/main.py`, `src/schemas.py`):
a FastAPI service over a MongoDB-like document store, with endpoints for
uploading reels, listing them, toggling likes, appending comments and a
naive substring-ish search.  Out-of-scope effects (file writes, HTTP
framework, environment loading) are modelled as explicit parameters;
the document store is modelled as an in-memory list of documents, and the
globally nullable `db` handle as an `Option Store`.  Timestamps are `Nat`
and ObjectIds are their canonical 24-hex-char lowercase string rendering.
-/

namespace Hustle

/-- Python truthiness of an optional string: `None` and `""` are falsy. -/
def truthy : Option String → Bool
  | none => false
  | some s => s ≠ ""

/-- The whitespace characters `str.strip()` removes (ASCII fragment). -/
def isPySpace (c : Char) : Bool :=
  c = ' ' || c = '\t' || c = '\n' || c = '\r' || c = '\x0b' || c = '\x0c'

/-- Python `s.strip()`: remove leading and trailing whitespace. -/
def pyStrip (s : String) : String :=
  String.mk (((s.toList.dropWhile isPySpace).reverse.dropWhile isPySpace).reverse)

/-- Lowercase an ASCII character (the `i` regex option and hex folding). -/
def lowerChar (c : Char) : Char :=
  if 'A' ≤ c && c ≤ 'Z' then Char.ofNat (c.toNat + 32) else c

/-- Lowercase a string. -/
def strLower (s : String) : String :=
  String.mk (s.toList.map lowerChar)

/-- Python `s.startswith(pre)`. -/
def pyStartsWith (pre s : String) : Bool :=
  pre.toList.isPrefixOf s.toList

/-- Python `s.split(',')` on character lists: `cur` accumulates the current
piece reversed. -/
def splitCommaAux (cur : List Char) : List Char → List (List Char)
  | [] => [cur.reverse]
  | c :: cs =>
      if c = ',' then cur.reverse :: splitCommaAux [] cs
      else splitCommaAux (c :: cur) cs

/-- Python `s.split(',')`: explicit-separator split, so `""` yields `[""]`
and adjacent commas yield empty pieces. -/
def pySplitComma (s : String) : List String :=
  (splitCommaAux [] s.toList).map String.mk

/-- Python `s.lstrip('#')`: remove every leading `'#'` character. -/
def pyLstripHash (s : String) : String :=
  String.mk (s.toList.dropWhile (fun c => c = '#'))

/-- Python `s.rstrip('/')`: remove every trailing `'/'` character. -/
def pyRstripSlash (s : String) : String :=
  String.mk ((s.toList.reverse.dropWhile (fun c => c = '/')).reverse)

/-- Hex-digit test for ObjectId validation. -/
def isHexChar (c : Char) : Bool :=
  c.isDigit || ('a' ≤ c && c ≤ 'f') || ('A' ≤ c && c ≤ 'F')

/-- `bson.ObjectId(s)` succeeds on a string exactly when it is 24 hex chars;
the constructor raises otherwise.  (The bytes-of-length-12 constructor path
cannot arise from a URL path parameter, which is always a `str`.) -/
def isValidOid (s : String) : Bool :=
  s.length = 24 && s.toList.all isHexChar

/-- The ObjectId value a valid 24-hex string parses to, in its canonical
lowercase rendering (`ObjectId("ABC…") == ObjectId("abc…")`). -/
def parseOid (s : String) : String := strLower s

/-- `main.py` line 170: the hashtags form field parsed into the stored list,
`[h.strip().lstrip('#') for h in (hashtags or "").split(',') if h.strip()]`. -/
def parseHashtags (hashtags : Option String) : List String :=
  ((pySplitComma (hashtags.getD "")).filter (fun h => pyStrip h ≠ "")).map
    (fun h => pyLstripHash (pyStrip h))

/-- A stored comment sub-document (fields of the dict built at
`main.py` lines 225-230). -/
structure CommentDoc where
  oid : String
  user_id : Option String
  text : String
  created_at : Nat
deriving DecidableEq

/-- A stored reel document (fields of the dict built at `main.py`
lines 167-176, plus the store-generated `_id`). -/
structure ReelDoc where
  oid : String
  video_url : String
  caption : Option String
  hashtags : List String
  likes : List String
  comments : List CommentDoc
  user_id : Option String
  created_at : Nat
  updated_at : Nat
deriving DecidableEq

/-- A stored user document (`schemas.py` `User`, plus the store `_id`). -/
structure UserDoc where
  oid : String
  name : String
  email : String
  bio : Option String
deriving DecidableEq

/-- The two collections the endpoints touch (`db["reel"]`, `db["user"]`). -/
structure Store where
  reels : List ReelDoc
  users : List UserDoc
deriving DecidableEq

/-- `CommentOut` response model. -/
structure CommentOut where
  oid : String
  user_id : Option String
  text : String
  created_at : Nat
deriving DecidableEq

/-- `ReelOut` response model: `likes` is an integer count, not the set. -/
structure ReelOut where
  oid : String
  video_url : String
  caption : Option String
  hashtags : List String
  likes : Nat
  comments : List CommentOut
  user_id : Option String
  created_at : Nat
deriving DecidableEq

/-- `SearchResult` response model. -/
structure SearchResult where
  type : String
  id : String
  title : String
  subtitle : Option String
deriving DecidableEq

/-- How an endpoint call can fail: an `HTTPException(status, detail)`, or an
uncaught `TypeError` from subscripting the `None` store handle
(`db["reel"]` when the connection failed), which FastAPI surfaces as a 500. -/
inductive PyError where
  | http (status : Nat) (detail : String)
  | noneTypeError
deriving DecidableEq

/-- Store round trips issued by the engagement endpoints, in order. -/
inductive StoreOp where
  | findOneReel (oid : String)
  | updateSetLikes (oid : String) (newLikes : List String)
  | updatePushComment (oid : String) (c : CommentDoc)
deriving DecidableEq

/-- `build_reel_out` (`main.py` lines 68-86): project `likes` to its length,
map the comments through the comment codec.  (`created_at` is always present
on documents this model builds, so the defensive "now" default never fires.) -/
def build_reel_out (doc : ReelDoc) : ReelOut :=
  { oid := doc.oid
    video_url := doc.video_url
    caption := doc.caption
    hashtags := doc.hashtags
    likes := doc.likes.length
    comments := doc.comments.map (fun c =>
      { oid := c.oid, user_id := c.user_id, text := c.text, created_at := c.created_at })
    user_id := doc.user_id
    created_at := doc.created_at }

/-- `db["reel"].find_one({"_id": oid})`. -/
def findReel (s : Store) (oid : String) : Option ReelDoc :=
  s.reels.find? (fun r => r.oid = oid)

/-- `update_one`: rewrite the first document matching the filter with `f`;
also report the matched count (0 or 1). -/
def updateFirst (p : ReelDoc → Bool) (f : ReelDoc → ReelDoc) :
    List ReelDoc → List ReelDoc × Nat
  | [] => ([], 0)
  | r :: rs =>
      if p r then (f r :: rs, 1)
      else
        let rest := updateFirst p f rs
        (r :: rest.1, rest.2)

/-- Python `set(xs)` for a list of strings: the duplicates collapse; we use
`dedup` as the canonical representative of the (order-unspecified) set. -/
def pySetOfList (l : List String) : List String := l.dedup

/-- Python `s.remove(x)` on a duplicate-free list representing a set. -/
def pySetRemove (l : List String) (x : String) : List String := l.erase x

/-- Python `s.add(x)` on a duplicate-free list representing a set. -/
def pySetAdd (l : List String) (x : String) : List String :=
  if x ∈ l then l else l ++ [x]

/-- The like-set computed by `like_reel` (`main.py` lines 202-210):
`set(str(u) for u in likes)`, then toggle `user_id` if it is truthy, else
add the `"anon"` sentinel. -/
def toggledLikes (stored : List String) (user_id : Option String) : List String :=
  let likes := pySetOfList stored
  if truthy user_id then
    let u := user_id.getD ""
    if u ∈ likes then pySetRemove likes u else pySetAdd likes u
  else
    pySetAdd likes "anon"

/-- `POST /api/reels/{reel_id}/like` (`main.py` lines 191-214).  Returns the
endpoint result, the store state afterwards, and the trace of store round
trips issued.  `now` stands for `datetime.now(timezone.utc)`. -/
def like_reel (db : Option Store) (reel_id : String) (user_id : Option String)
    (now : Nat) : Except PyError ReelOut × Option Store × List StoreOp :=
  if ¬ isValidOid reel_id then
    (.error (.http 400 "Invalid reel id"), db, [])
  else
    let oid := parseOid reel_id
    match db with
    | none => (.error .noneTypeError, none, [])
    | some s =>
      match findReel s oid with
      | none => (.error (.http 404 "Reel not found"), some s, [.findOneReel oid])
      | some reel =>
        let likes := toggledLikes reel.likes user_id
        let upd := updateFirst (fun r => r.oid = oid)
          (fun r => { r with likes := likes, updated_at := now }) s.reels
        let s2 : Store := { s with reels := upd.1 }
        match findReel s2 oid with
        | none => (.error .noneTypeError, some s2,
            [.findOneReel oid, .updateSetLikes oid likes, .findOneReel oid])
        | some updated =>
          (.ok (build_reel_out updated), some s2,
            [.findOneReel oid, .updateSetLikes oid likes, .findOneReel oid])

/-- `POST /api/reels/{reel_id}/comment` (`main.py` lines 218-235).  The new
comment's ObjectId and timestamp are the parameters `cid` and `now`; the
`NotFound` check is the matched-count of the `$push` update itself. -/
def comment_reel (db : Option Store) (reel_id : String) (user_id : Option String)
    (text : String) (cid : String) (now : Nat) :
    Except PyError ReelOut × Option Store × List StoreOp :=
  if ¬ isValidOid reel_id then
    (.error (.http 400 "Invalid reel id"), db, [])
  else
    let oid := parseOid reel_id
    match db with
    | none => (.error .noneTypeError, none, [])
    | some s =>
      let comment : CommentDoc :=
        { oid := cid, user_id := user_id, text := text, created_at := now }
      let upd := updateFirst (fun r => r.oid = oid)
        (fun r => { r with comments := r.comments ++ [comment], updated_at := now }) s.reels
      let s2 : Store := { s with reels := upd.1 }
      if upd.2 = 0 then
        (.error (.http 404 "Reel not found"), some s2, [.updatePushComment oid comment])
      else
        match findReel s2 oid with
        | none => (.error .noneTypeError, some s2,
            [.updatePushComment oid comment, .findOneReel oid])
        | some updated =>
          (.ok (build_reel_out updated), some s2,
            [.updatePushComment oid comment, .findOneReel oid])

/-- The descending-`created_at` order the list endpoint requests with
`.sort("created_at", -1)`. -/
def reelGE (a b : ReelDoc) : Prop := b.created_at ≤ a.created_at

instance : DecidableRel reelGE := fun _ b => Nat.decLe b.created_at _

instance : IsTotal ReelDoc reelGE :=
  ⟨fun a b => Nat.le_total b.created_at a.created_at⟩

instance : IsTrans ReelDoc reelGE :=
  ⟨fun _ _ _ hab hbc => Nat.le_trans hbc hab⟩

/-- The descending `created_at` sort the list endpoint requests
(`.sort("created_at", -1)`); ties keep the store's order (stable sort). -/
def sortReelsDesc (l : List ReelDoc) : List ReelDoc :=
  List.insertionSort reelGE l

/-- PyMongo `cursor.limit(n)`: a limit of 0 is documented as "no limit". -/
def applyLimit (limit : Nat) (l : List α) : List α :=
  if limit = 0 then l else l.take limit

/-- `GET /api/reels` (`main.py` lines 184-187):
`db["reel"].find({}).sort("created_at", -1).skip(skip).limit(limit)`. -/
def list_reels (db : Option Store) (limit : Nat) (skip : Nat) :
    Except PyError (List ReelOut) :=
  match db with
  | none => .error .noneTypeError
  | some s =>
      .ok ((applyLimit limit ((sortReelsDesc s.reels).drop skip)).map build_reel_out)

/-- `POST /api/reels` (`main.py` lines 142-180).  The bytes written to disk
are out of scope; `now` stands for the upload timestamp, `newId` for the
store-generated `_id` of the inserted document. -/
def upload_reel (db : Option Store) (content_type : Option String)
    (orig_filename : String) (caption : Option String) (hashtags : Option String)
    (user_id : Option String) (backend_url : Option String) (now : Nat)
    (newId : String) : Except PyError ReelOut × Option Store :=
  if ¬ (truthy content_type && pyStartsWith "video/" (content_type.getD "")) then
    (.error (.http 400 "Only video uploads are allowed"), db)
  else
    let filename := toString now ++ "_" ++ orig_filename
    let rel := "/uploads/" ++ filename
    let public_url :=
      if truthy backend_url then pyRstripSlash (backend_url.getD "") ++ rel else rel
    match db with
    | none => (.error .noneTypeError, none)
    | some s =>
      let doc : ReelDoc :=
        { oid := newId
          video_url := public_url
          caption := caption
          hashtags := parseHashtags hashtags
          likes := []
          comments := []
          user_id := user_id
          created_at := now
          updated_at := now }
      let s2 : Store := { s with reels := s.reels ++ [doc] }
      match findReel s2 newId with
      | none => (.error .noneTypeError, some s2)
      | some saved => (.ok (build_reel_out saved), some s2)

/-- One PCRE pattern character matched case-sensitively against one subject
character, for patterns in the literal-plus-dot fragment: `'.'` matches any
character except a newline, every other character matches itself. -/
def charMatch (pc c : Char) : Bool :=
  if pc = '.' then c ≠ '\n' else pc = c

/-- Does the pattern match starting exactly at the head of the subject? -/
def matchHere : List Char → List Char → Bool
  | [], _ => true
  | _ :: _, [] => false
  | p :: ps, c :: cs => charMatch p c && matchHere ps cs

/-- Unanchored regex containment: does the pattern match at some position? -/
def regexSearch (p : List Char) : List Char → Bool
  | [] => matchHere p []
  | c :: cs => matchHere p (c :: cs) || regexSearch p cs

/-- The match predicate `{"$regex": q, "$options": "i"}` applies to a string
field (`main.py` line 241), modelled for query strings in the
literal-plus-dot PCRE fragment; the `i` option is folding to lowercase. -/
def mongoMatchCI (q s : String) : Bool :=
  regexSearch (strLower q).toList (strLower s).toList

/-- Queries inside the modelled PCRE fragment: every character is either the
dot wildcard or a character with no regex meaning. -/
def regexPlainChar (c : Char) : Bool :=
  c ∉ (['^', '$', '*', '+', '?', '(', ')', '[', ']', '\x7b', '\x7d', '\\', '|'] : List Char)

/-- A reel matches the search filter
`{"$or": [{"caption": query}, {"hashtags": query}]}`: the caption matches
(a missing/null caption never does), or some element of the hashtags array
matches. -/
def reelSearchMatch (q : String) (r : ReelDoc) : Bool :=
  (match r.caption with
   | some c => mongoMatchCI q c
   | none => false)
  || r.hashtags.any (fun h => mongoMatchCI q h)

/-- The search result built for a matched user (`main.py` line 247):
`subtitle=u.get("bio") or u.get("email")` — a falsy (absent or empty) bio
falls back to the email. -/
def userResult (u : UserDoc) : SearchResult :=
  { type := "user"
    id := u.oid
    title := u.name
    subtitle := if truthy u.bio then u.bio else some u.email }

/-- The search result built for a matched reel (`main.py` lines 251-252):
title is the stripped caption or `"Reel"` when blank; subtitle joins the
first three hashtags as `"#a, #b, #c"`, or is `None` when the hashtags
array is falsy (empty). -/
def reelResult (r : ReelDoc) : SearchResult :=
  { type := "reel"
    id := r.oid
    title := if pyStrip (r.caption.getD "") = "" then "Reel" else pyStrip (r.caption.getD "")
    subtitle :=
      if r.hashtags ≠ [] then
        some ("#" ++ String.intercalate ", #" (r.hashtags.take 3))
      else none }

/-- `GET /api/search` (`main.py` lines 239-254): up to 10 users matched by
name, then up to 20 reels matched by caption-or-hashtag, appended in that
order to one result list. -/
def search (db : Option Store) (q : String) : Except PyError (List SearchResult) :=
  match db with
  | none => .error .noneTypeError
  | some s =>
      .ok (((s.users.filter (fun u => mongoMatchCI q u.name)).take 10).map userResult
        ++ ((s.reels.filter (fun r => reelSearchMatch q r)).take 20).map reelResult)

/-- The diagnostic payload of `GET /test` (environment-variable reporting is
out of scope and omitted). -/
structure TestResponse where
  backend : String
  database : String
  connection_status : String
  collections : List String
deriving DecidableEq

/-- `GET /test` (`main.py` lines 95-121): the one endpoint that checks
`db is not None`; with a live store it lists collection names (our model
store always answers), with a null handle it reports the degraded state
instead of raising. -/
def test_database (db : Option Store) : TestResponse :=
  match db with
  | some _ =>
      { backend := "✅ Running"
        database := "✅ Connected & Working"
        connection_status := "Connected"
        collections := ["reel", "user"] }
  | none =>
      { backend := "✅ Running"
        database := "⚠️ Available but not initialized"
        connection_status := "Not Connected"
        collections := [] }

/-- The hashtag-splitting contract restated independently for comparison
with `parseHashtags`: walk the comma-separated pieces in order; skip a
piece whose trim is empty; otherwise emit the piece trimmed and with all
leading `'#'` characters removed; never deduplicate. -/
def hashtagsWalk : List String → List String
  | [] => []
  | p :: ps =>
      if pyStrip p = "" then hashtagsWalk ps
      else pyLstripHash (pyStrip p) :: hashtagsWalk ps

/-- Is the first list a prefix of the second (character lists)? -/
def listPrefixEq : List Char → List Char → Bool
  | [], _ => true
  | _ :: _, [] => false
  | a :: as, b :: bs => a = b && listPrefixEq as bs

/-- Does the first list occur as a contiguous run inside the second? -/
def listContainsSeq (n : List Char) : List Char → Bool
  | [] => listPrefixEq n []
  | c :: cs => listPrefixEq n (c :: cs) || listContainsSeq n cs

/-- The matcher the search claim describes, stated from the spec's words:
plain case-insensitive substring containment (no regex semantics). -/
def substrCI (q s : String) : Bool :=
  listContainsSeq (strLower q).toList (strLower s).toList

/-- `n` successive anonymous like toggles (`user_id` absent), returning the
store handle after the `n`-th call; `nows` supplies each call's clock. -/
def anonToggleIter (s : Store) (id : String) (nows : Nat → Nat) : Nat → Option Store
  | 0 => some s
  | n + 1 => (like_reel (anonToggleIter s id nows n) id none (nows n)).2.1

/-! Concrete documents and stores used to evaluate the endpoints at
specific inputs. -/

def sampleOid : String := "aaaaaaaaaaaaaaaaaaaaaaaa"

def sampleOid2 : String := "bbbbbbbbbbbbbbbbbbbbbbbb"

def missingOid : String := "cccccccccccccccccccccccc"

def sampleReel : ReelDoc :=
  { oid := sampleOid
    video_url := "/uploads/1_v.mp4"
    caption := some "hello world"
    hashtags := ["fun", "games"]
    likes := ["u1"]
    comments := []
    user_id := none
    created_at := 5
    updated_at := 5 }

def sampleReel2 : ReelDoc :=
  { oid := sampleOid2
    video_url := "/uploads/2_w.mp4"
    caption := some "banana"
    hashtags := []
    likes := ["u1", "u2"]
    comments := []
    user_id := some "owner"
    created_at := 9
    updated_at := 9 }

def sampleStore : Store := { reels := [sampleReel], users := [] }

def sampleStoreB : Store :=
  { reels := [{ sampleReel with likes := ["u1", "u2"] }], users := [] }

def twoReelStore : Store := { reels := [sampleReel, sampleReel2], users := [] }

def sampleUser : UserDoc :=
  { oid := "dddddddddddddddddddddddd"
    name := "Ana"
    email := "ana@example.com"
    bio := none }

def searchStore : Store := { reels := [], users := [sampleUser] }

/-! ### General lemmas about the store primitives -/

theorem findReel_oid_eq {s : Store} {oid : String} {r : ReelDoc}
    (h : findReel s oid = some r) : r.oid = oid := by
  have := List.find?_some h
  simpa using this

theorem updateFirst_miss {p : ReelDoc → Bool} {f : ReelDoc → ReelDoc} :
    ∀ {l : List ReelDoc}, l.find? p = none → updateFirst p f l = (l, 0) := by
  intro l
  induction l with
  | nil => intro _; rfl
  | cons x xs ih =>
      intro h
      by_cases hx : p x
      · rw [List.find?_cons_of_pos _ hx] at h
        exact absurd h (by simp)
      · rw [List.find?_cons_of_neg _ hx] at h
        simp [updateFirst, hx, ih h]

theorem updateFirst_hit {p : ReelDoc → Bool} {f : ReelDoc → ReelDoc}
    (hp : ∀ x, p (f x) = p x) :
    ∀ {l : List ReelDoc} {r : ReelDoc}, l.find? p = some r →
      (updateFirst p f l).1.find? p = some (f r) ∧ (updateFirst p f l).2 = 1 := by
  intro l
  induction l with
  | nil => intro r h; simp [List.find?] at h
  | cons x xs ih =>
      intro r h
      by_cases hx : p x
      · rw [List.find?_cons_of_pos _ hx] at h
        have hr : x = r := by simpa using h
        subst hr
        constructor
        · simp only [updateFirst, hx]
          simp only [if_true]
          exact List.find?_cons_of_pos _ (by rw [hp x]; exact hx)
        · simp [updateFirst, hx]
      · rw [List.find?_cons_of_neg _ hx] at h
        have := ih h
        constructor
        · simp only [updateFirst, Bool.not_eq_true] at *
          simp only [hx]
          simp only [Bool.false_eq_true, if_false]
          rw [List.find?_cons_of_neg _ (by simp [hx])]
          exact this.1
        · simp only [updateFirst]
          simp only [hx, Bool.false_eq_true, if_false]
          exact this.2

/-! ### C1 : hashtag parsing -/

theorem parseHashtags_eq_walk (l : List String) :
    (l.filter (fun h => pyStrip h ≠ "")).map (fun h => pyLstripHash (pyStrip h)) =
      hashtagsWalk l := by
  induction l with
  | nil => rfl
  | cons p ps ih =>
      by_cases hp : pyStrip p = ""
      · simpa [hashtagsWalk, List.filter_cons, hp] using ih
      · simpa [hashtagsWalk, List.filter_cons, hp] using ih

/-- C1 counterexample: the claim says a single leading `'#'` is stripped and
empty tags are dropped; the code strips every leading `'#'` (`"##Fun"` parses
to `"Fun"`, not `"#Fun"`), and the emptiness filter runs on the raw piece
before the `'#'`-strip, so the piece `"#"` survives the filter and then
becomes an empty tag that is kept in the output. -/
theorem parseHashtags_claim_false :
    parseHashtags (some "#") = [""] ∧
    "" ∈ parseHashtags (some "#") ∧
    parseHashtags (some "##Fun") = ["Fun"] ∧
    parseHashtags (some "##Fun") ≠ ["#Fun"] := by
  refine ⟨by decide, by decide, by decide, by decide⟩

/-- C1 (amended): `Create` splits the hashtags input on commas, keeps the
pieces whose trim is non-empty in order without deduplication, and maps each
kept piece to its trim with ALL leading `'#'` characters removed (a piece
consisting only of `'#'`s therefore yields an empty tag that is kept); the
spec's example `"#Fun, sports ,, #Gaming"` still parses to
`["Fun", "sports", "Gaming"]`. -/
theorem parseHashtags_spec (h : Option String) :
    parseHashtags h = hashtagsWalk (pySplitComma (h.getD "")) ∧
    parseHashtags (some "#Fun, sports ,, #Gaming") = ["Fun", "sports", "Gaming"] := by
  exact ⟨parseHashtags_eq_walk _, by decide⟩

/-! ### Like-toggle lemmas (C2, C3, C10) -/

theorem toggledLikes_user (stored : List String) {u : String} (hu : u ≠ "") :
    toggledLikes stored (some u) =
      if u ∈ stored.dedup then stored.dedup.erase u else stored.dedup ++ [u] := by
  unfold toggledLikes pySetOfList pySetRemove pySetAdd
  by_cases hm : u ∈ stored.dedup
  · simp [truthy, hu, hm]
  · simp [truthy, hu, hm]

theorem toggledLikes_anon (stored : List String) :
    toggledLikes stored none =
      if "anon" ∈ stored.dedup then stored.dedup else stored.dedup ++ ["anon"] := by
  simp [toggledLikes, truthy, pySetOfList, pySetAdd]

theorem nodup_append_one {l : List String} {u : String} (hd : l.Nodup) (hm : u ∉ l) :
    (l ++ [u]).Nodup := by
  simp [List.nodup_append, hd, hm]

theorem toggledLikes_user_nodup (stored : List String) {u : String} (hu : u ≠ "") :
    (toggledLikes stored (some u)).Nodup := by
  rw [toggledLikes_user stored hu]
  by_cases hm : u ∈ stored.dedup
  · simpa [hm] using (stored.nodup_dedup).erase u
  · simpa [hm] using nodup_append_one stored.nodup_dedup hm

theorem toggledLikes_twice_length (stored : List String) {u : String} (hu : u ≠ "") :
    (toggledLikes (toggledLikes stored (some u)) (some u)).length =
      stored.dedup.length := by
  have hd : stored.dedup.Nodup := stored.nodup_dedup
  rw [toggledLikes_user stored hu]
  by_cases hm : u ∈ stored.dedup
  · rw [if_pos hm, toggledLikes_user _ hu]
    have hnd : (stored.dedup.erase u).Nodup := hd.erase u
    rw [List.dedup_eq_self.mpr hnd]
    have hnm : u ∉ stored.dedup.erase u := fun hmem =>
      ((hd.mem_erase_iff).mp hmem).1 rfl
    rw [if_neg hnm, List.length_append, List.length_erase_of_mem hm]
    have hpos : 1 ≤ stored.dedup.length := List.length_pos.mpr (List.ne_nil_of_mem hm)
    simp
    omega
  · rw [if_neg hm, toggledLikes_user _ hu]
    have hnd : (stored.dedup ++ [u]).Nodup := nodup_append_one hd hm
    rw [List.dedup_eq_self.mpr hnd]
    have hin : u ∈ stored.dedup ++ [u] := by simp
    rw [if_pos hin, List.erase_append_right _ hm, List.erase_cons_head]
    simp

theorem toggledLikes_once_length (stored : List String) {u : String} (hu : u ≠ "") :
    (toggledLikes stored (some u)).length =
      if u ∈ stored.dedup then stored.dedup.length - 1 else stored.dedup.length + 1 := by
  rw [toggledLikes_user stored hu]
  by_cases hm : u ∈ stored.dedup
  · rw [if_pos hm, if_pos hm, List.length_erase_of_mem hm]
  · rw [if_neg hm, if_neg hm, List.length_append]
    rfl

/-- Symbolic evaluation of `like_reel` on a valid id whose reel exists:
the returned view and final store both carry the toggled like list, and
the trace is read / write / re-read. -/
theorem like_reel_found {s : Store} {id : String} {r : ReelDoc} (uid : Option String)
    (now : Nat) (hval : isValidOid id) (hfind : findReel s (parseOid id) = some r) :
    ∃ s2 : Store,
      like_reel (some s) id uid now =
        (Except.ok (build_reel_out { r with likes := toggledLikes r.likes uid, updated_at := now }),
         some s2,
         [StoreOp.findOneReel (parseOid id),
          StoreOp.updateSetLikes (parseOid id) (toggledLikes r.likes uid),
          StoreOp.findOneReel (parseOid id)]) ∧
      findReel s2 (parseOid id) =
        some { r with likes := toggledLikes r.likes uid, updated_at := now } := by
  have hfind' : s.reels.find? (fun d => d.oid = parseOid id) = some r := hfind
  have hhit := updateFirst_hit (p := fun d => d.oid = parseOid id)
    (f := fun d => { d with likes := toggledLikes r.likes uid, updated_at := now })
    (fun _ => rfl) hfind'
  refine ⟨{ s with reels := (updateFirst (fun d => d.oid = parseOid id)
    (fun d => { d with likes := toggledLikes r.likes uid, updated_at := now }) s.reels).1 },
    ?_, hhit.1⟩
  unfold like_reel
  rw [if_neg (not_not_intro hval)]
  dsimp only
  rw [hfind]
  dsimp only
  have hfind2 : findReel { s with reels := (updateFirst (fun d => d.oid = parseOid id)
      (fun d => { d with likes := toggledLikes r.likes uid, updated_at := now }) s.reels).1 }
      (parseOid id) =
      some { r with likes := toggledLikes r.likes uid, updated_at := now } := hhit.1
  rw [hfind2]

/-- C2: on a reel that exists, toggling the like of one non-empty user
identifier twice returns the displayed like count to the cardinality of the
original like-set; the first call removes the user when present (count
drops by one) and adds the user when absent (count rises by one). -/
theorem like_toggle_pair_reverts (s : Store) (id u : String) (now1 now2 : Nat)
    (r : ReelDoc) (hu : u ≠ "") (hval : isValidOid id)
    (hfind : findReel s (parseOid id) = some r) :
    ∃ out1 s1 out2 s2 t1 t2,
      like_reel (some s) id (some u) now1 = (Except.ok out1, some s1, t1) ∧
      like_reel (some s1) id (some u) now2 = (Except.ok out2, some s2, t2) ∧
      out2.likes = r.likes.toFinset.card ∧
      (u ∈ r.likes.toFinset → out1.likes + 1 = r.likes.toFinset.card) ∧
      (u ∉ r.likes.toFinset → out1.likes = r.likes.toFinset.card + 1) := by
  obtain ⟨s1, heq1, hfind1⟩ := like_reel_found (some u) now1 hval hfind
  obtain ⟨s2, heq2, hfind2⟩ := like_reel_found (some u) now2 hval hfind1
  refine ⟨_, s1, _, s2, _, _, heq1, heq2, ?_, ?_, ?_⟩
  · show (build_reel_out _).likes = _
    unfold build_reel_out
    dsimp only
    rw [List.card_toFinset]
    exact toggledLikes_twice_length r.likes hu
  · intro hmem
    show (build_reel_out _).likes + 1 = _
    unfold build_reel_out
    dsimp only
    rw [List.card_toFinset, toggledLikes_once_length r.likes hu]
    have hmem' : u ∈ r.likes.dedup := by
      rw [List.mem_dedup]; exact List.mem_toFinset.mp hmem
    rw [if_pos hmem']
    have hpos : 1 ≤ r.likes.dedup.length :=
      List.length_pos.mpr (List.ne_nil_of_mem hmem')
    omega
  · intro hmem
    show (build_reel_out _).likes = _
    unfold build_reel_out
    dsimp only
    rw [List.card_toFinset, toggledLikes_once_length r.likes hu]
    have hmem' : u ∉ r.likes.dedup := by
      rw [List.mem_dedup]
      exact fun hc => hmem (List.mem_toFinset.mpr hc)
    rw [if_neg hmem']

/-- C2 witness: two likes by `"u1"` on the sample reel (whose like list is
`["u1"]`) restore the displayed count to the original cardinality 1. -/
theorem like_toggle_pair_reverts_witness :
    ∃ out1 s1 out2 s2 t1 t2,
      like_reel (some sampleStore) sampleOid (some "u1") 6 = (Except.ok out1, some s1, t1) ∧
      like_reel (some s1) sampleOid (some "u1") 7 = (Except.ok out2, some s2, t2) ∧
      out2.likes = sampleReel.likes.toFinset.card ∧
      ("u1" ∈ sampleReel.likes.toFinset → out1.likes + 1 = sampleReel.likes.toFinset.card) ∧
      ("u1" ∉ sampleReel.likes.toFinset → out1.likes = sampleReel.likes.toFinset.card + 1) :=
  like_toggle_pair_reverts sampleStore sampleOid "u1" 6 7 sampleReel (by decide) (by decide)
    (by decide)

theorem toggledLikes_anon_nodup (stored : List String) :
    (toggledLikes stored none).Nodup := by
  rw [toggledLikes_anon]
  by_cases hm : "anon" ∈ stored.dedup
  · simpa [hm] using stored.nodup_dedup
  · simpa [hm] using nodup_append_one stored.nodup_dedup hm

theorem anon_mem_toggledLikes (stored : List String) :
    "anon" ∈ toggledLikes stored none := by
  rw [toggledLikes_anon]
  by_cases hm : "anon" ∈ stored.dedup
  · rw [if_pos hm]
    exact hm
  · simp [hm]

theorem toggledLikes_anon_stable {l : List String} (hnd : l.Nodup)
    (hm : "anon" ∈ l) : toggledLikes l none = l := by
  rw [toggledLikes_anon, List.dedup_eq_self.mpr hnd, if_pos hm]

theorem toggledLikes_anon_toFinset (stored : List String) :
    (toggledLikes stored none).toFinset = insert "anon" stored.toFinset := by
  rw [toggledLikes_anon]
  by_cases hm : "anon" ∈ stored.dedup
  · rw [if_pos hm]
    ext a
    have hm' : "anon" ∈ stored := List.mem_dedup.mp hm
    simp only [List.mem_toFinset, List.mem_dedup, Finset.mem_insert]
    constructor
    · exact fun h => Or.inr h
    · rintro (rfl | h)
      · exact hm'
      · exact h
  · rw [if_neg hm]
    ext a
    simp only [List.mem_toFinset, List.mem_append, List.mem_dedup, Finset.mem_insert,
      List.mem_singleton]
    tauto

theorem toggledLikes_anon_length (stored : List String) :
    (toggledLikes stored none).length =
      if "anon" ∈ stored.dedup then stored.dedup.length else stored.dedup.length + 1 := by
  rw [toggledLikes_anon]
  by_cases hm : "anon" ∈ stored.dedup
  · rw [if_pos hm, if_pos hm]
  · rw [if_neg hm, if_neg hm, List.length_append]
    rfl

/-- After `n + 1` anonymous toggles the reel carries exactly the like list of
the first anonymous toggle (further anonymous calls only bump `updated_at`),
and the `(n+1)`-th call returned that reel's view. -/
theorem anonToggleIter_found (s : Store) (id : String) (nows : Nat → Nat) (r : ReelDoc)
    (hval : isValidOid id) (hfind : findReel s (parseOid id) = some r) :
    ∀ n, ∃ s2, anonToggleIter s id nows (n + 1) = some s2 ∧
      findReel s2 (parseOid id) =
        some { r with likes := toggledLikes r.likes none, updated_at := nows n } ∧
      (like_reel (anonToggleIter s id nows n) id none (nows n)).1 =
        Except.ok (build_reel_out
          { r with likes := toggledLikes r.likes none, updated_at := nows n }) := by
  have hstab : toggledLikes (toggledLikes r.likes none) none = toggledLikes r.likes none :=
    toggledLikes_anon_stable (toggledLikes_anon_nodup r.likes) (anon_mem_toggledLikes r.likes)
  intro n
  induction n with
  | zero =>
      obtain ⟨s2, heq, hf⟩ := like_reel_found none (nows 0) hval hfind
      refine ⟨s2, ?_, hf, ?_⟩
      · show (like_reel (anonToggleIter s id nows 0) id none (nows 0)).2.1 = some s2
        rw [show anonToggleIter s id nows 0 = some s from rfl, heq]
      · rw [show anonToggleIter s id nows 0 = some s from rfl, heq]
  | succ k ih =>
      obtain ⟨s2, hiter, hf, _⟩ := ih
      obtain ⟨s3, heq, hf3⟩ := like_reel_found none (nows (k + 1)) hval hf
      dsimp only at heq hf3
      rw [hstab] at heq hf3
      refine ⟨s3, ?_, hf3, ?_⟩
      · show (like_reel (anonToggleIter s id nows (k + 1)) id none (nows (k + 1))).2.1 = some s3
        rw [hiter, heq]
      · rw [hiter, heq]

/-- C3: starting from an existing reel, `n ≥ 1` anonymous like toggles leave
the like-set at `insert "anon"` of the original set: the displayed count
never exceeds the original cardinality plus 1, and equals it plus 1 exactly
when `"anon"` was not already a member; the `n`-th call's response shows that
reel. -/
theorem like_anon_collapse (s : Store) (id : String) (nows : Nat → Nat) (n : Nat)
    (r : ReelDoc) (hval : isValidOid id) (hfind : findReel s (parseOid id) = some r)
    (hn : 1 ≤ n) :
    ∃ s2 r2, anonToggleIter s id nows n = some s2 ∧
      findReel s2 (parseOid id) = some r2 ∧
      r2.likes.toFinset = insert "anon" r.likes.toFinset ∧
      r2.likes.length ≤ r.likes.toFinset.card + 1 ∧
      ("anon" ∉ r.likes.toFinset → r2.likes.length = r.likes.toFinset.card + 1) ∧
      (like_reel (anonToggleIter s id nows (n - 1)) id none (nows (n - 1))).1 =
        Except.ok (build_reel_out r2) := by
  obtain ⟨n', rfl⟩ : ∃ n', n = n' + 1 := ⟨n - 1, by omega⟩
  obtain ⟨s2, hiter, hf, hres⟩ := anonToggleIter_found s id nows r hval hfind n'
  refine ⟨s2, _, hiter, hf, ?_, ?_, ?_, by simpa using hres⟩
  · exact toggledLikes_anon_toFinset r.likes
  · show (toggledLikes r.likes none).length ≤ _
    rw [toggledLikes_anon_length, List.card_toFinset]
    by_cases hm : "anon" ∈ r.likes.dedup
    · rw [if_pos hm]; omega
    · rw [if_neg hm]
  · intro hmem
    show (toggledLikes r.likes none).length = _
    have hm : "anon" ∉ r.likes.dedup := by
      rw [List.mem_dedup]
      exact fun hc => hmem (List.mem_toFinset.mpr hc)
    rw [toggledLikes_anon_length, List.card_toFinset, if_neg hm]

/-- C3 witness: two anonymous toggles on the sample reel (like list `["u1"]`,
no `"anon"` yet) leave the displayed count at 2 = 1 + 1. -/
theorem like_anon_collapse_witness :
    ∃ s2 r2, anonToggleIter sampleStore sampleOid (fun k => 10 + k) 2 = some s2 ∧
      findReel s2 (parseOid sampleOid) = some r2 ∧
      r2.likes.toFinset = insert "anon" sampleReel.likes.toFinset ∧
      r2.likes.length ≤ sampleReel.likes.toFinset.card + 1 ∧
      ("anon" ∉ sampleReel.likes.toFinset →
        r2.likes.length = sampleReel.likes.toFinset.card + 1) ∧
      (like_reel (anonToggleIter sampleStore sampleOid (fun k => 10 + k) (2 - 1))
          sampleOid none ((fun k => 10 + k) (2 - 1))).1 =
        Except.ok (build_reel_out r2) :=
  like_anon_collapse sampleStore sampleOid (fun k => 10 + k) 2 sampleReel (by decide)
    (by decide) (by decide)

/-- C10: a like request carrying the empty-string user id takes the
anonymous branch (the code tests the truthiness of `user_id`, not its
presence): the call is indistinguishable from an anonymous call, and the
resulting like-set is the original with the `"anon"` sentinel inserted. -/
theorem like_empty_user_is_anon (db : Option Store) (s : Store) (id : String)
    (now : Nat) (r : ReelDoc) (hval : isValidOid id)
    (hfind : findReel s (parseOid id) = some r) :
    like_reel db id (some "") now = like_reel db id none now ∧
    ∃ s2 t, like_reel (some s) id (some "") now =
        (Except.ok (build_reel_out
          { r with likes := toggledLikes r.likes none, updated_at := now }), some s2, t) ∧
      (toggledLikes r.likes none).toFinset = insert "anon" r.likes.toFinset := by
  obtain ⟨s2, heq, _⟩ := like_reel_found none now hval hfind
  exact ⟨rfl, s2, _, by rw [show like_reel (some s) id (some "") now =
      like_reel (some s) id none now from rfl, heq], toggledLikes_anon_toFinset r.likes⟩

/-- C10 witness: on the sample store, liking with `user_id = ""` adds the
`"anon"` sentinel exactly as the anonymous call does. -/
theorem like_empty_user_is_anon_witness :
    like_reel (some sampleStore) sampleOid (some "") 6 =
      like_reel (some sampleStore) sampleOid none 6 ∧
    ∃ s2 t, like_reel (some sampleStore) sampleOid (some "") 6 =
        (Except.ok (build_reel_out
          { sampleReel with likes := toggledLikes sampleReel.likes none, updated_at := 6 }),
         some s2, t) ∧
      (toggledLikes sampleReel.likes none).toFinset =
        insert "anon" sampleReel.likes.toFinset :=
  like_empty_user_is_anon (some sampleStore) sampleStore sampleOid 6 sampleReel
    (by decide) (by decide)

/-! ### Comment endpoint lemmas (C6, C7, C4) -/

/-- Symbolic evaluation of `comment_reel` on a valid id whose reel exists:
the `$push` fires (matched count 1), the comment lands at the end of the
comment array, and the trace is the mutating update followed by the
re-read. -/
theorem comment_reel_found {s : Store} {id : String} {r : ReelDoc} (uid : Option String)
    (text cid : String) (now : Nat) (hval : isValidOid id)
    (hfind : findReel s (parseOid id) = some r) :
    ∃ s2, comment_reel (some s) id uid text cid now =
      (Except.ok (build_reel_out
        { r with comments := r.comments ++ [⟨cid, uid, text, now⟩], updated_at := now }),
       some s2,
       [StoreOp.updatePushComment (parseOid id) ⟨cid, uid, text, now⟩,
        StoreOp.findOneReel (parseOid id)]) ∧
      findReel s2 (parseOid id) =
        some { r with comments := r.comments ++ [⟨cid, uid, text, now⟩], updated_at := now } := by
  have hfind' : s.reels.find? (fun d => d.oid = parseOid id) = some r := hfind
  have hhit := updateFirst_hit (p := fun d => d.oid = parseOid id)
    (f := fun d => { d with comments := d.comments ++ [⟨cid, uid, text, now⟩], updated_at := now })
    (fun _ => rfl) hfind'
  refine ⟨{ s with reels := (updateFirst (fun d => d.oid = parseOid id)
    (fun d => { d with comments := d.comments ++ [⟨cid, uid, text, now⟩], updated_at := now })
    s.reels).1 }, ?_, hhit.1⟩
  unfold comment_reel
  rw [if_neg (not_not_intro hval)]
  dsimp only
  rw [hhit.2]
  rw [if_neg (by decide : ¬ (1 : Nat) = 0)]
  have hfind2 : findReel { s with reels := (updateFirst (fun d => d.oid = parseOid id)
      (fun d => { d with comments := d.comments ++ [⟨cid, uid, text, now⟩], updated_at := now })
      s.reels).1 } (parseOid id) =
      some { r with comments := r.comments ++ [⟨cid, uid, text, now⟩], updated_at := now } := hhit.1
  rw [hfind2]

/-- `comment_reel` on a well-formed id with no matching reel: the `$push`
matches nothing, the store is unchanged, and the 404 comes from the zero
matched-count of the mutating update itself (the trace holds no pre-read). -/
theorem comment_reel_miss {s : Store} {id : String} (uid : Option String)
    (text cid : String) (now : Nat) (hval : isValidOid id)
    (hmiss : findReel s (parseOid id) = none) :
    comment_reel (some s) id uid text cid now =
      (Except.error (PyError.http 404 "Reel not found"), some s,
       [StoreOp.updatePushComment (parseOid id) ⟨cid, uid, text, now⟩]) := by
  have hmiss' : s.reels.find? (fun d => d.oid = parseOid id) = none := hmiss
  have hupd := updateFirst_miss
    (f := fun d => { d with comments := d.comments ++ [⟨cid, uid, text, now⟩], updated_at := now })
    hmiss'
  unfold comment_reel
  rw [if_neg (not_not_intro hval)]
  dsimp only
  rw [hupd]
  rfl

/-- `like_reel` on a well-formed id with no matching reel: 404 after the
single read, store unchanged. -/
theorem like_reel_miss {s : Store} {id : String} (uid : Option String) (now : Nat)
    (hval : isValidOid id) (hmiss : findReel s (parseOid id) = none) :
    like_reel (some s) id uid now =
      (Except.error (PyError.http 404 "Reel not found"), some s,
       [StoreOp.findOneReel (parseOid id)]) := by
  unfold like_reel
  rw [if_neg (not_not_intro hval)]
  dsimp only
  rw [hmiss]

/-- C6: a malformed reel id makes both engagement endpoints fail 400 before
any store round trip (empty trace, store unchanged); a well-formed id that
matches no reel makes both fail 404 with the store unchanged, the like path
after its read and the comment path from the zero matched-count of the
mutating `$push` itself, with no pre-read in its trace. -/
theorem invalid_and_missing_id_errors (s : Store) (idBad idGood : String)
    (uid : Option String) (text cid : String) (now : Nat)
    (hbad : ¬ isValidOid idBad) (hgood : isValidOid idGood)
    (hmiss : findReel s (parseOid idGood) = none) :
    like_reel (some s) idBad uid now =
      (Except.error (PyError.http 400 "Invalid reel id"), some s, []) ∧
    comment_reel (some s) idBad uid text cid now =
      (Except.error (PyError.http 400 "Invalid reel id"), some s, []) ∧
    like_reel (some s) idGood uid now =
      (Except.error (PyError.http 404 "Reel not found"), some s,
       [StoreOp.findOneReel (parseOid idGood)]) ∧
    comment_reel (some s) idGood uid text cid now =
      (Except.error (PyError.http 404 "Reel not found"), some s,
       [StoreOp.updatePushComment (parseOid idGood) ⟨cid, uid, text, now⟩]) := by
  refine ⟨?_, ?_, like_reel_miss uid now hgood hmiss,
    comment_reel_miss uid text cid now hgood hmiss⟩
  · unfold like_reel
    rw [if_pos hbad]
  · unfold comment_reel
    rw [if_pos hbad]

/-- C6 witness: `"xyz"` is rejected 400 with no store op; the well-formed
but absent `missingOid` is rejected 404 with the sample store unchanged. -/
theorem invalid_and_missing_id_errors_witness :
    like_reel (some sampleStore) "xyz" (some "u1") 6 =
      (Except.error (PyError.http 400 "Invalid reel id"), some sampleStore, []) ∧
    comment_reel (some sampleStore) "xyz" (some "u1") "hi" "e1" 6 =
      (Except.error (PyError.http 400 "Invalid reel id"), some sampleStore, []) ∧
    like_reel (some sampleStore) missingOid (some "u1") 6 =
      (Except.error (PyError.http 404 "Reel not found"), some sampleStore,
       [StoreOp.findOneReel (parseOid missingOid)]) ∧
    comment_reel (some sampleStore) missingOid (some "u1") "hi" "e1" 6 =
      (Except.error (PyError.http 404 "Reel not found"), some sampleStore,
       [StoreOp.updatePushComment (parseOid missingOid) ⟨"e1", some "u1", "hi", 6⟩]) :=
  invalid_and_missing_id_errors sampleStore "xyz" missingOid (some "u1") "hi" "e1" 6
    (by decide) (by decide) (by decide)

/-- C7: commenting on an existing reel appends exactly one comment at the
end of the sequence, carrying the freshly generated id `cid` (distinct from
the reel's id whenever the generator is fresh) and the current timestamp,
and the response is the full re-read view of the updated reel. -/
theorem comment_appends_one (s : Store) (id : String) (uid : Option String)
    (text cid : String) (now : Nat) (r : ReelDoc) (hval : isValidOid id)
    (hfind : findReel s (parseOid id) = some r) (hfresh : cid ≠ r.oid) :
    ∃ out s2 r2, comment_reel (some s) id uid text cid now = (Except.ok out, some s2,
        [StoreOp.updatePushComment (parseOid id) ⟨cid, uid, text, now⟩,
         StoreOp.findOneReel (parseOid id)]) ∧
      findReel s2 (parseOid id) = some r2 ∧
      r2.comments = r.comments ++ [⟨cid, uid, text, now⟩] ∧
      out = build_reel_out r2 ∧
      out.comments.length = r.comments.length + 1 ∧
      out.comments.getLast? = some ⟨cid, uid, text, now⟩ ∧
      cid ≠ out.oid := by
  obtain ⟨s2, heq, hf⟩ := comment_reel_found uid text cid now hval hfind
  refine ⟨_, s2, _, heq, hf, rfl, rfl, ?_, ?_, ?_⟩
  · show (build_reel_out _).comments.length = _
    simp [build_reel_out]
  · show (build_reel_out _).comments.getLast? = _
    unfold build_reel_out
    dsimp only
    rw [List.map_append]
    exact List.getLast?_concat _
  · show cid ≠ (build_reel_out _).oid
    simpa [build_reel_out] using hfresh

/-- C7 witness: commenting `"hi"` with fresh id `"e1"` on the sample reel
appends one comment that is last in order. -/
theorem comment_appends_one_witness :
    ∃ out s2 r2, comment_reel (some sampleStore) sampleOid (some "u9") "hi" "e1" 6 =
        (Except.ok out, some s2,
         [StoreOp.updatePushComment (parseOid sampleOid) ⟨"e1", some "u9", "hi", 6⟩,
          StoreOp.findOneReel (parseOid sampleOid)]) ∧
      findReel s2 (parseOid sampleOid) = some r2 ∧
      r2.comments = sampleReel.comments ++ [⟨"e1", some "u9", "hi", 6⟩] ∧
      out = build_reel_out r2 ∧
      out.comments.length = sampleReel.comments.length + 1 ∧
      out.comments.getLast? = some ⟨"e1", some "u9", "hi", 6⟩ ∧
      "e1" ≠ out.oid :=
  comment_appends_one sampleStore sampleOid (some "u9") "hi" "e1" 6 sampleReel
    (by decide) (by decide) (by decide)

/-- C4 counterexample: the like toggle is not a single atomic mutation.  Its
trace is read / write / re-read, and the written like array is computed from
the document returned by the first read: on two stores that differ only in
the reel's stored likes, the same request writes different payloads.  A
concurrent toggle interleaved between the read and the write is therefore
lost, contradicting the claim that no read-modify-write spans two round
trips. -/
theorem like_not_atomic_counterexample :
    (like_reel (some sampleStore) sampleOid (some "u2") 7).2.2 =
      [StoreOp.findOneReel (parseOid sampleOid),
       StoreOp.updateSetLikes (parseOid sampleOid) ["u1", "u2"],
       StoreOp.findOneReel (parseOid sampleOid)] ∧
    (like_reel (some sampleStoreB) sampleOid (some "u2") 7).2.2 =
      [StoreOp.findOneReel (parseOid sampleOid),
       StoreOp.updateSetLikes (parseOid sampleOid) ["u1"],
       StoreOp.findOneReel (parseOid sampleOid)] ∧
    (["u1", "u2"] : List String) ≠ ["u1"] :=
  ⟨by decide, by decide, by decide⟩

/-- C4 (amended): the comment append is a single atomic `$push` whose
payload depends only on the request (it is the first store op of the trace
and mentions no store state), while the like toggle is a read-modify-write:
a read, then a `$set` of the full like array computed client-side from the
read document, then the response re-read. -/
theorem comment_atomic_like_rmw (s : Store) (id : String) (uid : Option String)
    (text cid : String) (now : Nat) (r : ReelDoc) (hval : isValidOid id)
    (hfind : findReel s (parseOid id) = some r) :
    (comment_reel (some s) id uid text cid now).2.2.head? =
      some (StoreOp.updatePushComment (parseOid id) ⟨cid, uid, text, now⟩) ∧
    (like_reel (some s) id uid now).2.2 =
      [StoreOp.findOneReel (parseOid id),
       StoreOp.updateSetLikes (parseOid id) (toggledLikes r.likes uid),
       StoreOp.findOneReel (parseOid id)] := by
  constructor
  · obtain ⟨s2, heq, _⟩ := comment_reel_found uid text cid now hval hfind
    rw [heq]
    rfl
  · obtain ⟨s2, heq, _⟩ := like_reel_found uid now hval hfind
    rw [heq]

/-- C4 amended-claim witness at the sample store. -/
theorem comment_atomic_like_rmw_witness :
    (comment_reel (some sampleStore) sampleOid (some "u2") "hi" "e1" 7).2.2.head? =
      some (StoreOp.updatePushComment (parseOid sampleOid) ⟨"e1", some "u2", "hi", 7⟩) ∧
    (like_reel (some sampleStore) sampleOid (some "u2") 7).2.2 =
      [StoreOp.findOneReel (parseOid sampleOid),
       StoreOp.updateSetLikes (parseOid sampleOid) (toggledLikes sampleReel.likes (some "u2")),
       StoreOp.findOneReel (parseOid sampleOid)] :=
  comment_atomic_like_rmw sampleStore sampleOid (some "u2") "hi" "e1" 7 sampleReel
    (by decide) (by decide)

/-! ### Null store handle (C5) -/

/-- C5 counterexample: with the store reference null, the list endpoint does
not report an unavailable result — it dereferences the null handle and
raises the NoneType subscription error (surfaced as HTTP 500). -/
theorem null_store_list_crashes :
    list_reels none 20 0 = Except.error PyError.noneTypeError := rfl

/-- C5 (amended): only the `/test` diagnostic endpoint checks the store
handle and degrades gracefully; List, ToggleLike, Comment, Search and Create
(with a valid video content type) all raise the NoneType error when the
store reference is null.  Input validation still runs first: a malformed id
still yields the 400 before the handle is touched. -/
theorem null_store_behaviour (limit skip now : Nat) (id : String) (uid : Option String)
    (text cid fn newId : String) (cap ht u bu : Option String) (q : String)
    (hval : isValidOid id) :
    list_reels none limit skip = Except.error PyError.noneTypeError ∧
    like_reel none id uid now = (Except.error PyError.noneTypeError, none, []) ∧
    comment_reel none id uid text cid now = (Except.error PyError.noneTypeError, none, []) ∧
    search none q = Except.error PyError.noneTypeError ∧
    upload_reel none (some "video/mp4") fn cap ht u bu now newId =
      (Except.error PyError.noneTypeError, none) ∧
    test_database none =
      { backend := "✅ Running", database := "⚠️ Available but not initialized",
        connection_status := "Not Connected", collections := [] } := by
  refine ⟨rfl, ?_, ?_, rfl, rfl, rfl⟩
  · unfold like_reel
    rw [if_neg (not_not_intro hval)]
  · unfold comment_reel
    rw [if_neg (not_not_intro hval)]

/-- C5 amended-claim witness at concrete arguments. -/
theorem null_store_behaviour_witness :
    list_reels none 20 0 = Except.error PyError.noneTypeError ∧
    like_reel none sampleOid (some "u1") 6 =
      (Except.error PyError.noneTypeError, none, []) ∧
    comment_reel none sampleOid (some "u1") "hi" "e1" 6 =
      (Except.error PyError.noneTypeError, none, []) ∧
    search none "a" = Except.error PyError.noneTypeError ∧
    upload_reel none (some "video/mp4") "v.mp4" none none none none 6 missingOid =
      (Except.error PyError.noneTypeError, none) ∧
    test_database none =
      { backend := "✅ Running", database := "⚠️ Available but not initialized",
        connection_status := "Not Connected", collections := [] } :=
  null_store_behaviour 20 0 6 sampleOid (some "u1") "hi" "e1" "v.mp4" missingOid
    none none none none "a" (by decide)

/-! ### List pagination (C8) -/

/-- C8 counterexample: for `limit = 0` the driver applies no limit, so the
page is the entire remaining list, not the empty window of positions
`N..N-1`: listing the two-reel store with `limit = 0, skip = 0` returns both
reels, while the claimed window of width 0 is empty. -/
theorem limit_zero_counterexample :
    list_reels (some twoReelStore) 0 0 =
      Except.ok [build_reel_out sampleReel2, build_reel_out sampleReel] ∧
    (((sortReelsDesc twoReelStore.reels).drop 0).take 0).map build_reel_out =
      ([] : List ReelOut) :=
  ⟨rfl, rfl⟩

/-- C8 (amended): for every limit `M ≥ 1` and skip `N`, the page is exactly
the window of positions `N..N+M-1` of the descending-`created_at` ordering
(a permutation of the stored reels that is pairwise sorted), consecutive
pages concatenate to the double-width window (so they never overlap), and no
upper bound is enforced on the caller-supplied limit: the page length is
`min M (number of reels - N)` for arbitrarily large `M`.  For `M = 0` the
driver treats the limit as "no limit" and returns all remaining reels. -/
theorem list_reels_window (s : Store) (M N : Nat) (hM : 1 ≤ M) :
    list_reels (some s) M N =
      Except.ok ((((sortReelsDesc s.reels).drop N).take M).map build_reel_out) ∧
    (sortReelsDesc s.reels).Perm s.reels ∧
    (sortReelsDesc s.reels).Pairwise reelGE ∧
    ((sortReelsDesc s.reels).drop N).take M ++ ((sortReelsDesc s.reels).drop (N + M)).take M =
      ((sortReelsDesc s.reels).drop N).take (M + M) ∧
    (((sortReelsDesc s.reels).drop N).take M).length = min M (s.reels.length - N) ∧
    list_reels (some s) 0 N =
      Except.ok (((sortReelsDesc s.reels).drop N).map build_reel_out) := by
  refine ⟨?_, List.perm_insertionSort _ _, List.sorted_insertionSort _ _, ?_, ?_, rfl⟩
  · unfold list_reels applyLimit
    dsimp only
    rw [if_neg (by omega : ¬ M = 0)]
  · rw [List.take_add, List.drop_drop]
  · rw [List.length_take, List.length_drop, show (sortReelsDesc s.reels).length =
      s.reels.length from (List.perm_insertionSort reelGE s.reels).length_eq]

/-- C8 amended-claim witness: pages `(skip 0, limit 1)` and
`(skip 1, limit 1)` of the two-reel store tile the sorted order. -/
theorem list_reels_window_witness :
    list_reels (some twoReelStore) 1 0 =
      Except.ok ((((sortReelsDesc twoReelStore.reels).drop 0).take 1).map build_reel_out) ∧
    (sortReelsDesc twoReelStore.reels).Perm twoReelStore.reels ∧
    (sortReelsDesc twoReelStore.reels).Pairwise reelGE ∧
    ((sortReelsDesc twoReelStore.reels).drop 0).take 1 ++
        ((sortReelsDesc twoReelStore.reels).drop (0 + 1)).take 1 =
      ((sortReelsDesc twoReelStore.reels).drop 0).take (1 + 1) ∧
    (((sortReelsDesc twoReelStore.reels).drop 0).take 1).length =
      min 1 (twoReelStore.reels.length - 0) ∧
    list_reels (some twoReelStore) 0 0 =
      Except.ok (((sortReelsDesc twoReelStore.reels).drop 0).map build_reel_out) :=
  list_reels_window twoReelStore 1 0 (by decide)

/-! ### Search (C9) -/

theorem matchHere_plain :
    ∀ (p : List Char), (∀ c ∈ p, c ≠ '.') → ∀ s, matchHere p s = listPrefixEq p s := by
  intro p
  induction p with
  | nil =>
      intro _ s
      cases s <;> rfl
  | cons pc pcs ih =>
      intro hp s
      cases s with
      | nil => rfl
      | cons c cs =>
          have hpc : pc ≠ '.' := hp pc (List.mem_cons_self pc pcs)
          have ih' := ih (fun d hd => hp d (List.mem_cons_of_mem pc hd)) cs
          simp [matchHere, listPrefixEq, charMatch, hpc, ih']

theorem regexSearch_plain (p : List Char) (hp : ∀ c ∈ p, c ≠ '.') :
    ∀ s, regexSearch p s = listContainsSeq p s := by
  intro s
  induction s with
  | nil => simp [regexSearch, listContainsSeq, matchHere_plain p hp]
  | cons c cs ih => simp [regexSearch, listContainsSeq, matchHere_plain p hp, ih]

/-- For a query whose (lowercased) characters contain no `'.'` — in
particular no metacharacter of the modelled PCRE fragment — the regex
containment the code requests coincides with plain substring containment. -/
theorem mongoMatch_plain_substr (p t : String)
    (hp : ∀ c ∈ (strLower p).toList, c ≠ '.') :
    mongoMatchCI p t = substrCI p t :=
  regexSearch_plain _ hp _

/-- C9 counterexample: the query `"."` is a regex wildcard, not a literal:
Search returns the user named `"Ana"` although `"."` is not a
(case-insensitive) substring of `"Ana"`, refuting the plain-substring
reading of the match predicate. -/
theorem search_dot_counterexample :
    search (some searchStore) "." =
      Except.ok [{ type := "user", id := "dddddddddddddddddddddddd", title := "Ana",
                   subtitle := some "ana@example.com" }] ∧
    substrCI "." "Ana" = false ∧
    mongoMatchCI "." "Ana" = true :=
  ⟨rfl, by decide, by decide⟩

/-- C9 (amended): for every query, Search returns at most 10 user results
followed by at most 20 reel results, users strictly before reels; each user
result carries the user's name as title and the bio-or-email as subtitle;
each reel result carries the trimmed caption (or `"Reel"` when blank) as
title and the first up-to-3 hashtags joined as `"#a, #b, #c"` (absent when
the reel has none) as subtitle.  Matching is case-insensitive REGEX
containment against the user name resp. the caption or a hashtag — it
coincides with substring containment exactly for queries free of regex
metacharacters (in the modelled fragment: free of `'.'`). -/
theorem search_shape (s : Store) (q : String) :
    ∃ us rs, search (some s) q = Except.ok (us ++ rs) ∧
      us.length ≤ 10 ∧ rs.length ≤ 20 ∧
      (∀ x ∈ us, x.type = "user") ∧
      (∀ x ∈ rs, x.type = "reel") ∧
      (∀ x ∈ us, ∃ u, u ∈ s.users ∧ mongoMatchCI q u.name = true ∧ x.id = u.oid ∧
        x.title = u.name ∧ x.subtitle = (if truthy u.bio then u.bio else some u.email)) ∧
      (∀ x ∈ rs, ∃ r, r ∈ s.reels ∧ reelSearchMatch q r = true ∧ x.id = r.oid ∧
        x.title = (if pyStrip (r.caption.getD "") = "" then "Reel"
          else pyStrip (r.caption.getD "")) ∧
        x.subtitle = (if r.hashtags ≠ [] then
          some ("#" ++ String.intercalate ", #" (r.hashtags.take 3)) else none)) ∧
      (∀ p t, (∀ c ∈ (strLower p).toList, c ≠ '.') → mongoMatchCI p t = substrCI p t) := by
  refine ⟨((s.users.filter (fun u => mongoMatchCI q u.name)).take 10).map userResult,
    ((s.reels.filter (fun r => reelSearchMatch q r)).take 20).map reelResult,
    ?_, ?_, ?_, ?_, ?_, ?_, ?_, fun p t hp => mongoMatch_plain_substr p t hp⟩
  · rfl
  · simp
  · simp
  · intro x hx
    obtain ⟨u, _, rfl⟩ := List.mem_map.mp hx
    rfl
  · intro x hx
    obtain ⟨r, _, rfl⟩ := List.mem_map.mp hx
    rfl
  · intro x hx
    obtain ⟨u, hu, rfl⟩ := List.mem_map.mp hx
    have hu' := List.mem_of_mem_take hu
    rw [List.mem_filter] at hu'
    exact ⟨u, hu'.1, hu'.2, rfl, rfl, rfl⟩
  · intro x hx
    obtain ⟨r, hr, rfl⟩ := List.mem_map.mp hx
    have hr' := List.mem_of_mem_take hr
    rw [List.mem_filter] at hr'
    exact ⟨r, hr'.1, hr'.2, rfl, rfl, rfl⟩

/-- C9 amended-claim witness at the sample search store and the query
`"an"`. -/
theorem search_shape_witness :
    ∃ us rs, search (some searchStore) "an" = Except.ok (us ++ rs) ∧
      us.length ≤ 10 ∧ rs.length ≤ 20 ∧
      (∀ x ∈ us, x.type = "user") ∧
      (∀ x ∈ rs, x.type = "reel") ∧
      (∀ x ∈ us, ∃ u, u ∈ searchStore.users ∧ mongoMatchCI "an" u.name = true ∧
        x.id = u.oid ∧ x.title = u.name ∧
        x.subtitle = (if truthy u.bio then u.bio else some u.email)) ∧
      (∀ x ∈ rs, ∃ r, r ∈ searchStore.reels ∧ reelSearchMatch "an" r = true ∧
        x.id = r.oid ∧
        x.title = (if pyStrip (r.caption.getD "") = "" then "Reel"
          else pyStrip (r.caption.getD "")) ∧
        x.subtitle = (if r.hashtags ≠ [] then
          some ("#" ++ String.intercalate ", #" (r.hashtags.take 3)) else none)) ∧
      (∀ p t, (∀ c ∈ (strLower p).toList, c ≠ '.') → mongoMatchCI p t = substrCI p t) :=
  search_shape searchStore "an"

end Hustle
